import Mathlib

/-!
Verification of the conversation-and-response reconciliation logic of the
DumsorAi Streamlit front end (src/app.py), shallowly embedded in Lean.

Decoded JSON bodies are modelled by the inductive type `Json`; Python dict
access, string operations and the caught-exception discipline of the
interaction handler are modelled explicitly.  The active handler code
(src/app.py lines 45-119) is embedded first; the commented-out alternate
variant kept in the same file (its content-parsing loop and its run_sql
function) is embedded separately under names suffixed with C.
-/

/-- A decoded JSON value, as produced by resp.json(). -/
inductive Json where
  | null : Json
  | bool : Bool → Json
  | str : String → Json
  | arr : List Json → Json
  | obj : List (String × Json) → Json

/-- First-match association lookup on the field list of a JSON object,
    modelling Python dict key lookup (keys are unique in decoded JSON). -/
def assoc : List (String × Json) → String → Option Json
  | [], _ => none
  | (k, v) :: t, key => if k = key then some v else assoc t key

/-- Key lookup on a JSON value: on objects it is dict lookup, on anything
    else it yields none (the shapes exercised here are always objects). -/
def Json.lookup : Json → String → Option Json
  | .obj fs, k => assoc fs k
  | _, _ => none

/-- Python subscript access d[k]: raises KeyError when the key is absent
    (and a TypeError on non-dict receivers); both surface as exceptions. -/
def getKey (j : Json) (k : String) : Except String Json :=
  match j.lookup k with
  | some v => .ok v
  | none => .error ("KeyError: " ++ k)

/-- Python d.get(k, default): requires a dict receiver, never raises on one. -/
def dget (j : Json) (k : String) (d : Json) : Except String Json :=
  match j with
  | .obj fs => .ok ((assoc fs k).getD d)
  | _ => .error ("AttributeError: get: " ++ k)

/-- Python d.get(k) with no default: yields None when the key is absent. -/
def dgetOpt (j : Json) (k : String) : Except String (Option Json) :=
  match j with
  | .obj fs => .ok (assoc fs k)
  | _ => .error ("AttributeError: get: " ++ k)

/-- Python equality item["type"] == tag: true only for an equal string. -/
def isTag (ty : Json) (tag : String) : Bool :=
  match ty with
  | .str s => s = tag
  | _ => false

/-- Python str() of a decoded JSON value, as interpolated by an f-string.
    Exact for the scalar values this application ever interpolates; the
    composite renderings are abstract placeholders (no code path or claim
    interpolates a composite value). -/
def pyStr : Json → String
  | .null => "None"
  | .bool true => "True"
  | .bool false => "False"
  | .str s => s
  | .arr _ => "<list>"
  | .obj _ => "<dict>"

/-- Python str.strip(): drop whitespace from both ends of the character
    sequence. -/
def pyStrip (s : String) : String :=
  ⟨((s.data.dropWhile Char.isWhitespace).reverse.dropWhile Char.isWhitespace).reverse⟩

/-- Python str.startswith: prefix test on the character sequence. -/
def pyStartsWith (s pre : String) : Bool :=
  pre.data.isPrefixOf s.data

/-- The narrative-text accumulation loop of the active variant
    (src/app.py lines 99-101): for each content item, when its type tag is
    "text", append its text payload followed by a newline. -/
def answerTextLoop : List Json → String → Except String String
  | [], acc => .ok acc
  | item :: rest, acc =>
    match getKey item "type" with
    | .error e => .error e
    | .ok ty =>
      if isTag ty "text" then
        match getKey item "text" with
        | .error e => .error e
        | .ok tv =>
          match tv with
          | .str s => answerTextLoop rest (acc ++ s ++ "\n")
          | _ => .error "TypeError: text payload is not a string"
      else answerTextLoop rest acc

/-- The active variant narrative parse (src/app.py lines 97-101):
    answer_text starts empty; only when the top-level key "message" is
    present is result["message"]["content"] iterated. -/
def parseAnswerText (result : Json) : Except String String :=
  match result.lookup "message" with
  | none => .ok ""
  | some msg =>
    match getKey msg "content" with
    | .error e => .error e
    | .ok c =>
      match c with
      | .arr items => answerTextLoop items ""
      | _ => .error "TypeError: content is not a list"

/-- The commented-out variant content loop (src/app.py lines 266-270):
    text items accumulate text plus newline; each item of type "sql"
    overwrites sql_statement with item.get("statement"). -/
def contentLoopC : List Json → String → Option Json → Except String (String × Option Json)
  | [], acc, sqlSt => .ok (acc, sqlSt)
  | item :: rest, acc, sqlSt =>
    match getKey item "type" with
    | .error e => .error e
    | .ok ty =>
      if isTag ty "text" then
        match getKey item "text" with
        | .error e => .error e
        | .ok tv =>
          match tv with
          | .str s => contentLoopC rest (acc ++ s ++ "\n") sqlSt
          | _ => .error "TypeError: text payload is not a string"
      else if isTag ty "sql" then
        match dgetOpt item "statement" with
        | .error e => .error e
        | .ok v => contentLoopC rest acc v
      else contentLoopC rest acc sqlSt

/-- The commented-out variant parse (src/app.py lines 263-270):
    answer_text starts empty and sql_statement starts as None; only when
    the top-level key "message" is present is the content iterated. -/
def parseContentC (result : Json) : Except String (String × Option Json) :=
  match result.lookup "message" with
  | none => .ok ("", none)
  | some msg =>
    match getKey msg "content" with
    | .error e => .error e
    | .ok c =>
      match c with
      | .arr items => contentLoopC items "" none
      | _ => .error "TypeError: content is not a list"

/-- A Streamlit rendering event emitted by the interaction handler. -/
inductive Render where
  | markdown : String → Render
  | errorBox : String → Render
  | warningBox : String → Render
  | jsonView : Json → Render

/-- The placeholder shown when the parsed narrative is blank
    (src/app.py line 106). -/
def noNarrativeWarning : String := "⚠️ No narrative text returned. Check Debug Info above."

/-- Debug display (src/app.py lines 84-86): when the response carries a
    debug_info key, a heading and the debug payload are rendered. -/
def debugRenders (result : Json) : List Render :=
  match result.lookup "debug_info" with
  | some d => [Render.markdown "### Debug Info", Render.jsonView d]
  | none => []

/-- Error display (src/app.py lines 89-90): when the response carries an
    error key, render the message field of the error object, defaulting to
    "Unknown error". Raises when the error value is not a dict. -/
def errorRenders (result : Json) : Except String (List Render) :=
  match result.lookup "error" with
  | none => .ok []
  | some e =>
    match e with
    | .obj fs => .ok [Render.errorBox ("Error: " ++ pyStr ((assoc fs "message").getD (.str "Unknown error")))]
    | _ => .error "AttributeError: get: message"

/-- The saved analyst turn (src/app.py lines 109-113): a dict with role
    "analyst", the content array taken verbatim from
    result.get("message", \x7b\x7d).get("content", []), and the request id. -/
def analystMsg (result : Json) : Except String Json :=
  match dget result "message" (.obj []) with
  | .error e => .error e
  | .ok msgv =>
    match dget msgv "content" (.arr []) with
    | .error e => .error e
    | .ok content =>
      match dget result "request_id" .null with
      | .error e => .error e
      | .ok rid => .ok (.obj [("role", .str "analyst"), ("content", content), ("request_id", rid)])

/-- The body of the try block of the interaction handler (src/app.py lines
    81-114) after the transport call has produced a decoded result: debug
    display, error display, optional raw display, narrative parse,
    markdown-or-placeholder, then construction of the analyst turn.  Any
    raised exception falls to the except-Exception clause (line 118),
    rendering the failure and appending nothing; renders emitted before the
    raise remain. -/
def tryBody (showRaw : Bool) (result : Json) : List Render × Option Json :=
  let rD := debugRenders result
  match errorRenders result with
  | .error ex => (rD ++ [Render.errorBox ("Unexpected error: " ++ ex)], none)
  | .ok rE =>
    let rRaw := if showRaw then [Render.jsonView result] else []
    match parseAnswerText result with
    | .error ex => (rD ++ rE ++ rRaw ++ [Render.errorBox ("Unexpected error: " ++ ex)], none)
    | .ok answer =>
      let rA := if pyStrip answer ≠ "" then [Render.markdown answer] else [Render.warningBox noNarrativeWarning]
      match analystMsg result with
      | .error ex => (rD ++ rE ++ rRaw ++ rA ++ [Render.errorBox ("Unexpected error: " ++ ex)], none)
      | .ok amsg => (rD ++ rE ++ rRaw ++ rA, some amsg)

/-- Outcome of the single requests.post round trip inside ask_analyst
    (src/app.py lines 55-57): a decoded 2xx body, an HTTPError raised by
    raise_for_status carrying the response status and text, or another
    raised requests exception (network or timeout failure). -/
inductive HttpOutcome where
  | ok : Json → HttpOutcome
  | httpError : Nat → String → HttpOutcome
  | exn : String → HttpOutcome

/-- The user turn appended on submission (src/app.py line 73). -/
def userMsg (prompt : String) : Json :=
  .obj [("role", .str "user"), ("content", .arr [.obj [("type", .str "text"), ("text", .str prompt)]])]

/-- The semantic_model_file payload field (src/app.py line 52): the
    configured value unchanged when it already starts with "@", otherwise
    with a single "@" prepended. -/
def semanticModelFileField (modelFile : String) : String :=
  if pyStartsWith modelFile "@" then modelFile else "@" ++ modelFile

/-- The request body built by ask_analyst (src/app.py lines 50-54): the
    full conversation history verbatim, the semantic model reference, and
    the debug flag. -/
def askAnalystPayload (modelFile : String) (messages : List Json) : Json :=
  .obj [("messages", .arr messages),
        ("semantic_model_file", .str (semanticModelFileField modelFile)),
        ("debug", .bool true)]

/-- Initial conversation history at session start (src/app.py lines 60-61). -/
def initialMessages : List Json := []

/-- The interaction handler for one user submission (src/app.py lines
    72-119): append the user turn, render the prompt, call ask_analyst
    exactly once with the full history, then either run the try body (on a
    decoded 2xx reply) or render the HTTPError or generic exception
    message; only a successful try body appends the analyst turn.  Returns
    the new history, the rendering events, and the requests sent. -/
def handlePrompt (modelFile : String) (showRaw : Bool) (transport : Json → HttpOutcome)
    (history : List Json) (prompt : String) : List Json × List Render × List Json :=
  let h1 := history ++ [userMsg prompt]
  let payload := askAnalystPayload modelFile h1
  match transport payload with
  | .httpError status text =>
      (h1, [Render.markdown prompt, Render.errorBox ("Cortex API error: " ++ toString status ++ " - " ++ text)], [payload])
  | .exn msg =>
      (h1, [Render.markdown prompt, Render.errorBox ("Unexpected error: " ++ msg)], [payload])
  | .ok result =>
      match tryBody showRaw result with
      | (rs, some amsg) => (h1 ++ [amsg], Render.markdown prompt :: rs, [payload])
      | (rs, none) => (h1, Render.markdown prompt :: rs, [payload])

/-- The six optional warehouse connection secrets (src/app.py lines
    152-157 of the commented-out variant; identical to lines 22-27). -/
structure WarehouseSecrets where
  user : Option String
  password : Option String
  role : Option String
  warehouse : Option String
  database : Option String
  schema : Option String

/-- Python truthiness of an optional secret string: absent and empty are
    falsy. -/
def truthyStr : Option String → Bool
  | none => false
  | some s => s ≠ ""

/-- Columns and rows fetched from the warehouse cursor. -/
structure QueryFrame where
  cols : List String
  rows : List (List Json)

/-- Outcome of the connect-execute-fetch sequence against the external
    warehouse connector (an external collaborator, passed as an oracle):
    either a fetched frame or a raised exception message. -/
inductive ConnOutcome where
  | ok : QueryFrame → ConnOutcome
  | raise : String → ConnOutcome

/-- run_sql of the commented-out variant (src/app.py lines 191-206): when
    any of the six secrets is falsy, return (None, "Missing Snowflake
    credentials") without touching the connector; otherwise return the
    fetched frame, or (None, str(e)) when the connector raises. -/
def run_sql (secrets : WarehouseSecrets) (connector : String → ConnOutcome) (sql : String) :
    Option QueryFrame × Option String :=
  if !(truthyStr secrets.user && truthyStr secrets.password && truthyStr secrets.role &&
       truthyStr secrets.warehouse && truthyStr secrets.database && truthyStr secrets.schema) then
    (none, some "Missing Snowflake credentials")
  else
    match connector sql with
    | .ok frame => (some frame, none)
    | .raise m => (none, some m)

/-- The failure display of the commented-out variant caller (src/app.py
    line 306): when run_sql yields no dataframe, the err component is
    rendered as an execution failure. -/
def sqlFailureRender (err : Option String) : Render :=
  .errorBox ("SQL execution failed: " ++ (match err with | some s => s | none => "None"))

/-!
Spec-side wire shapes.  The spec (section 4.2) describes the observed
response envelopes: shape (a) is a top-level "messages" array of role
plus content, with SQL payloads under field name "sql"; shape (b) is a
single top-level "message" object whose content items carry text under
"text" and SQL under "statement".  The encoders below build exactly those
valid wire bodies, so that claims quantifying over "every valid shape-(x)
response" become quantification over the encoded data.
-/

/-- A typed content item of the wire protocol: narrative text or a SQL
    statement. -/
inductive SpecItem where
  | text : String → SpecItem
  | sql : String → SpecItem

/-- Shape-(b) encoding of a content item: SQL payloads live under the
    field name "statement". -/
def SpecItem.toJsonB : SpecItem → Json
  | .text s => .obj [("type", .str "text"), ("text", .str s)]
  | .sql s => .obj [("type", .str "sql"), ("statement", .str s)]

/-- Shape-(a) encoding of a content item: SQL payloads live under the
    field name "sql". -/
def SpecItem.toJsonA : SpecItem → Json
  | .text s => .obj [("type", .str "text"), ("text", .str s)]
  | .sql s => .obj [("type", .str "sql"), ("sql", .str s)]

/-- One message of a shape-(a) envelope: a role and a content array. -/
structure SpecMsgA where
  role : String
  items : List SpecItem

/-- A valid shape-(b) response body: a single "message" object with a
    "content" array. -/
def shapeB (items : List SpecItem) : Json :=
  .obj [("message", .obj [("content", .arr (items.map SpecItem.toJsonB))])]

/-- A valid shape-(a) response body: a top-level "messages" array. -/
def shapeA (msgs : List SpecMsgA) : Json :=
  .obj [("messages", .arr (msgs.map (fun m =>
    .obj [("role", .str m.role), ("content", .arr (m.items.map SpecItem.toJsonA))])))]

/-- The ordered text payloads of a content-item list. -/
def textsOf : List SpecItem → List String
  | [] => []
  | .text s :: r => s :: textsOf r
  | .sql _ :: r => textsOf r

/-- The ordered SQL payloads of a content-item list. -/
def sqlsOf : List SpecItem → List String
  | [] => []
  | .text _ :: r => sqlsOf r
  | .sql s :: r => s :: sqlsOf r

/-- What the active parsing loop accumulates over a content-item list:
    each text payload followed by a line break, in order. -/
def concatTextsNl : List SpecItem → String
  | [] => ""
  | .text s :: r => s ++ "\n" ++ concatTextsNl r
  | .sql _ :: r => concatTextsNl r

/-- What the commented-out variant sql_statement assignment accumulates:
    each SQL item overwrites the previous value, so only the last SQL
    payload survives. -/
def sqlOverwrite : List SpecItem → Option Json → Option Json
  | [], cur => cur
  | .text _ :: r, cur => sqlOverwrite r cur
  | .sql s :: r, _ => sqlOverwrite r (some (.str s))

/-! Helper lemmas. -/

theorem strAppend_assoc (a b c : String) : a ++ b ++ c = a ++ (b ++ c) := by
  apply String.ext
  simp [String.data_append, List.append_assoc]

theorem strAppend_empty (a : String) : a ++ "" = a := by
  apply String.ext
  simp [String.data_append]

theorem strEmpty_append (a : String) : "" ++ a = a := by
  apply String.ext
  simp [String.data_append]

/-- The active accumulation loop, run over shape-(b) encoded items, appends
    to its accumulator each text payload followed by a line break. -/
theorem answerTextLoop_toJsonB (items : List SpecItem) (acc : String) :
    answerTextLoop (items.map SpecItem.toJsonB) acc = .ok (acc ++ concatTextsNl items) := by
  induction items generalizing acc with
  | nil => simp [answerTextLoop, strAppend_empty, concatTextsNl]
  | cons hd tl ih =>
    cases hd with
    | text s =>
      simp [answerTextLoop, SpecItem.toJsonB, getKey, Json.lookup, assoc, isTag, ih,
            concatTextsNl, strAppend_assoc]
    | sql s =>
      simp [answerTextLoop, SpecItem.toJsonB, getKey, Json.lookup, assoc, isTag, ih, concatTextsNl]

/-- The active parse of a valid shape-(b) body. -/
theorem parseAnswerText_shapeB (items : List SpecItem) :
    parseAnswerText (shapeB items) = .ok (concatTextsNl items) := by
  simp [parseAnswerText, shapeB, Json.lookup, assoc, getKey, answerTextLoop_toJsonB,
        strEmpty_append]

/-- The commented-out variant loop, run over shape-(b) encoded items:
    text accumulates as in the active loop, and the sql register is
    overwritten at each SQL item. -/
theorem contentLoopC_toJsonB (items : List SpecItem) (acc : String) (cur : Option Json) :
    contentLoopC (items.map SpecItem.toJsonB) acc cur
      = .ok (acc ++ concatTextsNl items, sqlOverwrite items cur) := by
  induction items generalizing acc cur with
  | nil => simp [contentLoopC, strAppend_empty, concatTextsNl, sqlOverwrite]
  | cons hd tl ih =>
    cases hd with
    | text s =>
      simp [contentLoopC, SpecItem.toJsonB, getKey, Json.lookup, assoc, isTag, ih,
            concatTextsNl, sqlOverwrite, strAppend_assoc]
    | sql s =>
      simp [contentLoopC, SpecItem.toJsonB, getKey, Json.lookup, assoc, isTag, dgetOpt, ih,
            concatTextsNl, sqlOverwrite]

/-- The commented-out variant parse of a valid shape-(b) body. -/
theorem parseContentC_shapeB (items : List SpecItem) :
    parseContentC (shapeB items) = .ok (concatTextsNl items, sqlOverwrite items none) := by
  simp [parseContentC, shapeB, Json.lookup, assoc, getKey, contentLoopC_toJsonB,
        strEmpty_append]

/-- When the response has no top-level message key, the saved analyst turn
    has an empty content array. -/
theorem analystMsg_noMessage (fs : List (String × Json)) (h : assoc fs "message" = none) :
    analystMsg (Json.obj fs)
      = .ok (Json.obj [("role", Json.str "analyst"), ("content", Json.arr []),
                       ("request_id", (assoc fs "request_id").getD Json.null)]) := by
  simp [analystMsg, dget, h, assoc]

/-- When the response carries a message object, the saved analyst turn
    holds the content value of that object verbatim. -/
theorem analystMsg_message (fs ms : List (String × Json)) (h : assoc fs "message" = some (Json.obj ms)) :
    analystMsg (Json.obj fs)
      = .ok (Json.obj [("role", Json.str "analyst"),
                       ("content", (assoc ms "content").getD (Json.arr [])),
                       ("request_id", (assoc fs "request_id").getD Json.null)]) := by
  simp [analystMsg, dget, h]

/-- Every successfully constructed analyst turn carries role "analyst". -/
theorem analystMsg_role (R a : Json) (h : analystMsg R = .ok a) :
    a.lookup "role" = some (Json.str "analyst") := by
  cases h1 : dget R "message" (Json.obj []) with
  | error e => simp [analystMsg, h1] at h
  | ok m =>
    cases h2 : dget m "content" (Json.arr []) with
    | error e => simp [analystMsg, h1, h2] at h
    | ok c =>
      cases h3 : dget R "request_id" Json.null with
      | error e => simp [analystMsg, h1, h2, h3] at h
      | ok rid =>
        simp [analystMsg, h1, h2, h3] at h
        subst h
        rfl

/-- A try body that saved an analyst turn obtained it from analystMsg. -/
theorem tryBody_some (showRaw : Bool) (R : Json) (rs : List Render) (amsg : Json)
    (h : tryBody showRaw R = (rs, some amsg)) : analystMsg R = .ok amsg := by
  cases h1 : errorRenders R with
  | error e => simp [tryBody, h1] at h
  | ok rE =>
    cases h2 : parseAnswerText R with
    | error e => simp [tryBody, h1, h2] at h
    | ok ans =>
      cases h3 : analystMsg R with
      | error e => simp [tryBody, h1, h2, h3] at h
      | ok amsg2 =>
        simp [tryBody, h1, h2, h3] at h
        rw [← h.2]

/-- Computed form of a try body in which every step succeeds. -/
theorem tryBody_eq (showRaw : Bool) (R : Json) (rE : List Render) (ans : String) (amsg : Json)
    (h1 : errorRenders R = .ok rE) (h2 : parseAnswerText R = .ok ans) (h3 : analystMsg R = .ok amsg) :
    tryBody showRaw R
      = (debugRenders R ++ rE ++ (if showRaw then [Render.jsonView R] else [])
          ++ (if pyStrip ans ≠ "" then [Render.markdown ans] else [Render.warningBox noNarrativeWarning]),
         some amsg) := by
  simp [tryBody, h1, h2, h3]

/-!  Claim theorems.  -/

/-- Claim C10: for every configured semantic-model resource string, the
    payload field semantic_model_file begins with "@": a value already
    starting with "@" is sent unchanged, any other value gets a single "@"
    prepended, and the request body carries exactly this normalized
    value — the configured value is normalized, never rejected. -/
theorem C10_semantic_model_normalized (s : String) (msgs : List Json) :
    pyStartsWith (semanticModelFileField s) "@" = true
    ∧ (pyStartsWith s "@" = true → semanticModelFileField s = s)
    ∧ (pyStartsWith s "@" = false → semanticModelFileField s = "@" ++ s)
    ∧ (askAnalystPayload s msgs).lookup "semantic_model_file"
        = some (Json.str (semanticModelFileField s)) := by
  refine ⟨?_, ?_, ?_, ?_⟩
  · cases h : pyStartsWith s "@" with
    | true => simp [semanticModelFileField, h]
    | false =>
      have hpre : pyStartsWith ("@" ++ s) "@" = true := by
        have hd : ("@" ++ s).data = '@' :: s.data := by
          rw [String.data_append]
          rfl
        simp [pyStartsWith, hd, List.isPrefixOf]
      simp [semanticModelFileField, h, hpre]
  · intro h; simp [semanticModelFileField, h]
  · intro h; simp [semanticModelFileField, h]
  · simp [askAnalystPayload, Json.lookup, assoc]

/-- Witness for C10 at concrete inputs: a value without "@" gets one
    prepended, a value with "@" is kept, and both results start with "@". -/
theorem C10_witness :
    semanticModelFileField "model.yaml" = "@" ++ "model.yaml"
    ∧ semanticModelFileField "@m.yaml" = "@m.yaml"
    ∧ pyStartsWith (semanticModelFileField "model.yaml") "@" = true :=
  ⟨(C10_semantic_model_normalized "model.yaml" []).2.2.1 (by decide),
   (C10_semantic_model_normalized "@m.yaml" []).2.1 (by decide),
   (C10_semantic_model_normalized "model.yaml" []).1⟩

/-- Claim C4: a submission whose round trip raises an HTTPError (non-2xx
    status) yields exactly one request attempt, a visible error render
    carrying the status code and response body, and a history ending with
    the appended user turn and no assistant turn (no rollback). -/
theorem C4_transport_error (mf : String) (showRaw : Bool) (transport : Json → HttpOutcome)
    (hist : List Json) (p : String) (status : Nat) (body : String)
    (h : transport (askAnalystPayload mf (hist ++ [userMsg p])) = .httpError status body) :
    handlePrompt mf showRaw transport hist p
      = (hist ++ [userMsg p],
         [Render.markdown p,
          Render.errorBox ("Cortex API error: " ++ toString status ++ " - " ++ body)],
         [askAnalystPayload mf (hist ++ [userMsg p])]) := by
  simp [handlePrompt, h]

/-- Witness for C4: a mocked HTTP 500 with body "internal". -/
theorem C4_witness :
    handlePrompt "model" false (fun _ => HttpOutcome.httpError 500 "internal") [] "q"
      = ([userMsg "q"],
         [Render.markdown "q", Render.errorBox "Cortex API error: 500 - internal"],
         [askAnalystPayload "model" [userMsg "q"]]) :=
  C4_transport_error "model" false (fun _ => HttpOutcome.httpError 500 "internal") [] "q" 500 "internal" rfl

/-- Claim C6: the conversation store starts empty and every path of the
    interaction handler only appends at the end: the prior history is
    left intact and is extended by the user turn, followed on success by
    one assistant turn — including every error path. -/
theorem C6_append_only (mf : String) (showRaw : Bool) (transport : Json → HttpOutcome)
    (hist : List Json) (p : String) :
    initialMessages = []
    ∧ ∃ t, (handlePrompt mf showRaw transport hist p).1 = hist ++ t
        ∧ (t = [userMsg p] ∨ ∃ amsg, t = [userMsg p, amsg]) := by
  refine ⟨rfl, ?_⟩
  cases h : transport (askAnalystPayload mf (hist ++ [userMsg p])) with
  | httpError st tx => exact ⟨[userMsg p], by simp [handlePrompt, h], Or.inl rfl⟩
  | exn m => exact ⟨[userMsg p], by simp [handlePrompt, h], Or.inl rfl⟩
  | ok R =>
    cases htb : tryBody showRaw R with
    | mk rs amsgOpt =>
      cases amsgOpt with
      | none => exact ⟨[userMsg p], by simp [handlePrompt, h, htb], Or.inl rfl⟩
      | some a => exact ⟨[userMsg p, a], by simp [handlePrompt, h, htb], Or.inr ⟨a, rfl⟩⟩

/-- Counterexample to claim C9: the handler appends the assistant reply
    with role "analyst", which is neither "user" nor "assistant". -/
theorem C9_counterexample :
    (handlePrompt "m" false (fun _ => HttpOutcome.ok (Json.obj [])) [] "hi").1
      = [userMsg "hi",
         Json.obj [("role", Json.str "analyst"), ("content", Json.arr []), ("request_id", Json.null)]]
    ∧ (Json.obj [("role", Json.str "analyst"), ("content", Json.arr []),
                 ("request_id", Json.null)]).lookup "role" = some (Json.str "analyst")
    ∧ ("analyst" : String) ≠ "user" ∧ ("analyst" : String) ≠ "assistant" :=
  ⟨rfl, rfl, by decide, by decide⟩

/-- Claim C9 as amended: every turn the handler appends carries role
    "user" or role "analyst" (the code uses "analyst", not "assistant",
    for the reply turn), on every code path. -/
theorem C9_amended_roles (mf : String) (showRaw : Bool) (transport : Json → HttpOutcome)
    (hist : List Json) (p : String) :
    ∃ t, (handlePrompt mf showRaw transport hist p).1 = hist ++ t
      ∧ ∀ m ∈ t, m.lookup "role" = some (Json.str "user")
               ∨ m.lookup "role" = some (Json.str "analyst") := by
  have huser : (userMsg p).lookup "role" = some (Json.str "user") := rfl
  cases h : transport (askAnalystPayload mf (hist ++ [userMsg p])) with
  | httpError st tx =>
    refine ⟨[userMsg p], by simp [handlePrompt, h], ?_⟩
    intro m hm
    rw [List.mem_singleton] at hm
    exact Or.inl (hm ▸ huser)
  | exn msg =>
    refine ⟨[userMsg p], by simp [handlePrompt, h], ?_⟩
    intro m hm
    rw [List.mem_singleton] at hm
    exact Or.inl (hm ▸ huser)
  | ok R =>
    cases htb : tryBody showRaw R with
    | mk rs amsgOpt =>
      cases amsgOpt with
      | none =>
        refine ⟨[userMsg p], by simp [handlePrompt, h, htb], ?_⟩
        intro m hm
        rw [List.mem_singleton] at hm
        exact Or.inl (hm ▸ huser)
      | some a =>
        refine ⟨[userMsg p, a], by simp [handlePrompt, h, htb], ?_⟩
        intro m hm
        rcases List.mem_cons.mp hm with h1 | h2
        · exact Or.inl (h1 ▸ huser)
        · rw [List.mem_singleton] at h2
          exact Or.inr (h2 ▸ analystMsg_role R a (tryBody_some showRaw R rs a htb))

/-- Witness for C9 as amended, at a concrete empty-object reply. -/
theorem C9_witness :
    ∃ t, (handlePrompt "m" false (fun _ => HttpOutcome.ok (Json.obj [])) [] "hi").1 = [] ++ t
      ∧ ∀ m ∈ t, m.lookup "role" = some (Json.str "user")
               ∨ m.lookup "role" = some (Json.str "analyst") :=
  C9_amended_roles "m" false (fun _ => HttpOutcome.ok (Json.obj [])) [] "hi"

/-- Counterexample to claim C1: a valid shape-(a) response (top-level key
    "messages", here with one text item "hello" and one SQL item) is
    parsed to empty narrative text, not to the join "hello" of its text
    payloads, and the stored assistant turn has empty content — the active
    code never dispatches on the "messages" key. -/
theorem C1_counterexample :
    parseAnswerText (shapeA [⟨"analyst", [SpecItem.text "hello", SpecItem.sql "SELECT 1"]⟩])
      = .ok ""
    ∧ ("" : String) ≠ "hello"
    ∧ (tryBody false (shapeA [⟨"analyst", [SpecItem.text "hello", SpecItem.sql "SELECT 1"]⟩])).2
        = some (Json.obj [("role", Json.str "analyst"), ("content", Json.arr []),
                          ("request_id", Json.null)]) :=
  ⟨rfl, by decide, rfl⟩

/-- Claim C1 as amended: the parsing step keys only on the top-level
    "message" field; for any response without it — shape-(a) responses
    included — the narrative text is empty, no SQL is extracted (in either
    variant), and the saved assistant turn has an empty content array. -/
theorem C1_amended_no_shapeA_path (fs : List (String × Json)) (h : assoc fs "message" = none) :
    parseAnswerText (Json.obj fs) = .ok ""
    ∧ parseContentC (Json.obj fs) = .ok ("", none)
    ∧ analystMsg (Json.obj fs)
        = .ok (Json.obj [("role", Json.str "analyst"), ("content", Json.arr []),
                         ("request_id", (assoc fs "request_id").getD Json.null)]) := by
  refine ⟨?_, ?_, analystMsg_noMessage fs h⟩
  · simp [parseAnswerText, Json.lookup, h]
  · simp [parseContentC, Json.lookup, h]

/-- Witness for C1 as amended, at the concrete shape-(a) body of the
    counterexample. -/
theorem C1_witness :
    parseAnswerText (shapeA [⟨"analyst", [SpecItem.text "hello", SpecItem.sql "SELECT 1"]⟩])
      = .ok ""
    ∧ parseContentC (shapeA [⟨"analyst", [SpecItem.text "hello", SpecItem.sql "SELECT 1"]⟩])
      = .ok ("", none) :=
  ⟨(C1_amended_no_shapeA_path
      [("messages", Json.arr [Json.obj [("role", Json.str "analyst"),
        ("content", Json.arr [SpecItem.toJsonA (SpecItem.text "hello"),
                              SpecItem.toJsonA (SpecItem.sql "SELECT 1")])]])] rfl).1,
   (C1_amended_no_shapeA_path
      [("messages", Json.arr [Json.obj [("role", Json.str "analyst"),
        ("content", Json.arr [SpecItem.toJsonA (SpecItem.text "hello"),
                              SpecItem.toJsonA (SpecItem.sql "SELECT 1")])]])] rfl).2.1⟩

/-- Counterexample to claim C2: on a valid shape-(b) response carrying the
    two SQL statements "S1" then "S2", the only SQL-extracting code (the
    commented-out variant) retains a single statement, the last one, so
    the retained sequence [S2] is not the ordered sequence [S1, S2]; the
    active variant extracts no SQL at all. -/
theorem C2_counterexample :
    parseContentC (shapeB [SpecItem.sql "S1", SpecItem.sql "S2"])
      = .ok ("", some (Json.str "S2"))
    ∧ (some (Json.str "S2")).toList ≠ [Json.str "S1", Json.str "S2"]
    ∧ parseAnswerText (shapeB [SpecItem.sql "S1", SpecItem.sql "S2"]) = .ok "" := by
  refine ⟨rfl, ?_, rfl⟩
  intro h
  exact absurd (congrArg List.length h) (by decide)

/-- Claim C2 as amended: on every valid shape-(b) response the
    commented-out variant reads SQL items under the field name
    "statement", but each SQL item overwrites the single sql_statement
    register, so only the last statement is retained (never an ordered
    sequence); the active variant parses narrative text only and extracts
    no SQL. -/
theorem C2_amended_last_statement_only (items : List SpecItem) :
    parseContentC (shapeB items) = .ok (concatTextsNl items, sqlOverwrite items none)
    ∧ parseAnswerText (shapeB items) = .ok (concatTextsNl items) :=
  ⟨parseContentC_shapeB items, parseAnswerText_shapeB items⟩

/-- Counterexample to claim C7: for the shape-(b) response with the single
    text payload "a", the parsed text is "a\n" (the payload followed by a
    line break), not the line-break join "a" of the payloads. -/
theorem C7_counterexample :
    parseAnswerText (shapeB [SpecItem.text "a"]) = .ok "a\n"
    ∧ String.intercalate "\n" ["a"] = "a"
    ∧ ("a\n" : String) ≠ "a" :=
  ⟨rfl, rfl, by decide⟩

/-- Claim C7 as amended: the parsed narrative is the concatenation, in
    order, of every text payload with a line break appended after each
    (the line-break join plus one trailing break when any text item is
    present); and whenever the parsed narrative is blank after stripping
    — in particular whenever no text item was found — the handler renders
    the explicit no-narrative placeholder instead of the text. -/
theorem C7_amended_trailing_newline :
    (∀ items : List SpecItem, parseAnswerText (shapeB items) = .ok (concatTextsNl items))
    ∧ (∀ (showRaw : Bool) (R : Json) (er : List Render) (a : String),
        errorRenders R = .ok er → parseAnswerText R = .ok a → pyStrip a = "" →
        Render.warningBox noNarrativeWarning ∈ (tryBody showRaw R).1) := by
  refine ⟨parseAnswerText_shapeB, ?_⟩
  intro showRaw R er a he hp hs
  cases hm : analystMsg R with
  | ok amsg => simp [tryBody, he, hp, hs, hm]
  | error e => simp [tryBody, he, hp, hs, hm]

/-- Witness for C7 as amended: the two-item body parses to "hi\n", and on
    the empty-object response the placeholder warning is rendered. -/
theorem C7_witness :
    parseAnswerText (shapeB [SpecItem.text "hi", SpecItem.sql "S"])
      = .ok (concatTextsNl [SpecItem.text "hi", SpecItem.sql "S"])
    ∧ Render.warningBox noNarrativeWarning ∈ (tryBody false (Json.obj [])).1 :=
  ⟨C7_amended_trailing_newline.1 [SpecItem.text "hi", SpecItem.sql "S"],
   C7_amended_trailing_newline.2 false (Json.obj []) [] "" rfl rfl rfl⟩

/-- Claim C3: a response carrying only a top-level error object parses to
    empty text and no SQL; the error message (or "Unknown error" when the
    message field is absent) is rendered without raising even though the
    HTTP layer reported success; the handler still completes, appending an
    assistant turn with empty content; and a response without an error key
    produces no application-level error render. -/
theorem C3_error_only_surfaced (efs : List (String × Json)) (mf : String) (hist : List Json)
    (p : String) :
    parseAnswerText (Json.obj [("error", Json.obj efs)]) = .ok ""
    ∧ parseContentC (Json.obj [("error", Json.obj efs)]) = .ok ("", none)
    ∧ errorRenders (Json.obj [("error", Json.obj efs)])
        = .ok [Render.errorBox
            ("Error: " ++ pyStr ((assoc efs "message").getD (Json.str "Unknown error")))]
    ∧ handlePrompt mf false (fun _ => HttpOutcome.ok (Json.obj [("error", Json.obj efs)])) hist p
        = (hist ++ [userMsg p,
             Json.obj [("role", Json.str "analyst"), ("content", Json.arr []),
                       ("request_id", Json.null)]],
           [Render.markdown p,
            Render.errorBox
              ("Error: " ++ pyStr ((assoc efs "message").getD (Json.str "Unknown error"))),
            Render.warningBox noNarrativeWarning],
           [askAnalystPayload mf (hist ++ [userMsg p])])
    ∧ ∀ gs : List (String × Json), assoc gs "error" = none → errorRenders (Json.obj gs) = .ok [] := by
  have hP : parseAnswerText (Json.obj [("error", Json.obj efs)]) = .ok "" := by
    simp [parseAnswerText, Json.lookup, assoc]
  have hE : errorRenders (Json.obj [("error", Json.obj efs)])
      = .ok [Render.errorBox
          ("Error: " ++ pyStr ((assoc efs "message").getD (Json.str "Unknown error")))] := by
    simp [errorRenders, Json.lookup, assoc]
  have hA : analystMsg (Json.obj [("error", Json.obj efs)])
      = .ok (Json.obj [("role", Json.str "analyst"), ("content", Json.arr []),
                       ("request_id", Json.null)]) := by
    have h0 := analystMsg_noMessage [("error", Json.obj efs)] (by simp [assoc])
    simpa [assoc] using h0
  have hps : pyStrip "" = "" := rfl
  have hT := tryBody_eq false (Json.obj [("error", Json.obj efs)]) _ "" _ hE hP hA
  refine ⟨hP, by simp [parseContentC, Json.lookup, assoc], hE, ?_, ?_⟩
  · simp [handlePrompt, hT, debugRenders, Json.lookup, assoc, hps]
  · intro gs hg
    simp [errorRenders, Json.lookup, hg]

/-- Witness for C3 at the error body with message "boom": the error is
    rendered, text is empty, and the errorless empty object renders no
    error. -/
theorem C3_witness :
    parseAnswerText (Json.obj [("error", Json.obj [("message", Json.str "boom")])]) = .ok ""
    ∧ errorRenders (Json.obj [("error", Json.obj [("message", Json.str "boom")])])
        = .ok [Render.errorBox "Error: boom"]
    ∧ errorRenders (Json.obj []) = .ok [] :=
  ⟨(C3_error_only_surfaced [("message", Json.str "boom")] "m" [] "q").1,
   (C3_error_only_surfaced [("message", Json.str "boom")] "m" [] "q").2.2.1,
   (C3_error_only_surfaced [("message", Json.str "boom")] "m" [] "q").2.2.2.2 [] rfl⟩

/-- Claim C5: when the reply carries a message.content value, the stored
    assistant turn holds that value verbatim (the wire-native typed items,
    not a re-encoded form), the handler appends exactly that turn, and the
    next request body replays the stored turn sequence unchanged under the
    "messages" key, reconstructing the exact content shape the service
    emitted. -/
theorem C5_content_passthrough (fs ms : List (String × Json)) (v : Json) (er : List Render)
    (a : String) (mf : String) (hist : List Json) (p : String)
    (hmsg : assoc fs "message" = some (Json.obj ms))
    (hc : assoc ms "content" = some v)
    (he : errorRenders (Json.obj fs) = .ok er)
    (hp : parseAnswerText (Json.obj fs) = .ok a) :
    analystMsg (Json.obj fs)
      = .ok (Json.obj [("role", Json.str "analyst"), ("content", v),
                       ("request_id", (assoc fs "request_id").getD Json.null)])
    ∧ handlePrompt mf false (fun _ => HttpOutcome.ok (Json.obj fs)) hist p
        = (hist ++ [userMsg p,
             Json.obj [("role", Json.str "analyst"), ("content", v),
                       ("request_id", (assoc fs "request_id").getD Json.null)]],
           Render.markdown p :: (tryBody false (Json.obj fs)).1,
           [askAnalystPayload mf (hist ++ [userMsg p])])
    ∧ ∀ l : List Json, (askAnalystPayload mf l).lookup "messages" = some (Json.arr l) := by
  have hA : analystMsg (Json.obj fs)
      = .ok (Json.obj [("role", Json.str "analyst"), ("content", v),
                       ("request_id", (assoc fs "request_id").getD Json.null)]) := by
    have h0 := analystMsg_message fs ms hmsg
    rw [hc] at h0
    simpa using h0
  have hT := tryBody_eq false (Json.obj fs) er a _ he hp hA
  refine ⟨hA, ?_, ?_⟩
  · simp [handlePrompt, hT]
  · intro l
    simp [askAnalystPayload, Json.lookup, assoc]

/-- Witness for C5 at a concrete one-text-item reply: the stored content
    is the received array, and the payload echoes the turn list. -/
theorem C5_witness :
    analystMsg (Json.obj [("message", Json.obj [("content",
        Json.arr [Json.obj [("type", Json.str "text"), ("text", Json.str "ok")]])])])
      = .ok (Json.obj [("role", Json.str "analyst"),
             ("content", Json.arr [Json.obj [("type", Json.str "text"), ("text", Json.str "ok")]]),
             ("request_id", Json.null)])
    ∧ (askAnalystPayload "m" [userMsg "q"]).lookup "messages" = some (Json.arr [userMsg "q"]) :=
  ⟨(C5_content_passthrough
      [("message", Json.obj [("content",
          Json.arr [Json.obj [("type", Json.str "text"), ("text", Json.str "ok")]])])]
      [("content", Json.arr [Json.obj [("type", Json.str "text"), ("text", Json.str "ok")]])]
      (Json.arr [Json.obj [("type", Json.str "text"), ("text", Json.str "ok")]])
      [] "ok\n" "m" [] "q" rfl rfl rfl rfl).1,
   (C5_content_passthrough
      [("message", Json.obj [("content",
          Json.arr [Json.obj [("type", Json.str "text"), ("text", Json.str "ok")]])])]
      [("content", Json.arr [Json.obj [("type", Json.str "text"), ("text", Json.str "ok")]])]
      (Json.arr [Json.obj [("type", Json.str "text"), ("text", Json.str "ok")]])
      [] "ok\n" "m" [] "q" rfl rfl rfl rfl).2.2 [userMsg "q"]⟩

/-- Counterexample to claim C8: with all six connection secrets unset,
    run_sql returns its sentinel through the error component of the
    result — the err slot is populated, and the caller renders it through
    the same failure path as any query error, so an error is reported,
    contradicting "never reports an error". -/
theorem C8_counterexample :
    run_sql ⟨none, none, none, none, none, none⟩ (fun _ => ConnOutcome.raise "unreachable")
        "SELECT 1"
      = (none, some "Missing Snowflake credentials")
    ∧ (some "Missing Snowflake credentials" ≠ (none : Option String))
    ∧ sqlFailureRender (some "Missing Snowflake credentials")
        = Render.errorBox "SQL execution failed: Missing Snowflake credentials" :=
  ⟨rfl, by decide, rfl⟩

/-- Claim C8 as amended: whenever any of the six connection secrets is
    unset or empty, run_sql is a no-op — independent of the SQL input and
    of the warehouse connector, and without raising — but the sentinel it
    returns is the message "Missing Snowflake credentials" in the error
    slot of its result, which the caller renders as an execution
    failure. -/
theorem C8_amended_disabled_via_error_slot (secrets : WarehouseSecrets)
    (connector : String → ConnOutcome) (sql : String)
    (h : (truthyStr secrets.user && truthyStr secrets.password && truthyStr secrets.role &&
          truthyStr secrets.warehouse && truthyStr secrets.database
          && truthyStr secrets.schema) = false) :
    run_sql secrets connector sql = (none, some "Missing Snowflake credentials")
    ∧ sqlFailureRender (run_sql secrets connector sql).2
        = Render.errorBox "SQL execution failed: Missing Snowflake credentials" := by
  have h1 : run_sql secrets connector sql = (none, some "Missing Snowflake credentials") := by
    simp [run_sql, h]
  exact ⟨h1, by rw [h1]; rfl⟩

/-- Witness for C8 as amended, with every secret unset. -/
theorem C8_witness :
    run_sql ⟨none, none, none, none, none, none⟩ (fun _ => ConnOutcome.ok ⟨["A"], []⟩) "SELECT 1"
      = (none, some "Missing Snowflake credentials") :=
  (C8_amended_disabled_via_error_slot ⟨none, none, none, none, none, none⟩
    (fun _ => ConnOutcome.ok ⟨["A"], []⟩) "SELECT 1" rfl).1
